import Mathlib

/-!
A shallow embedding of the momentum-analysis engine of
`src/stockmomentum.py` (class `StockMomentumAnalyzer`), together with
theorems settling the specification's claims about it.

Modelling conventions:
* pandas float values are embedded as `ℚ`; a float that the code can set to
  IEEE NaN is embedded as `Option ℚ` with `none` for NaN (every comparison
  with NaN is false, which the embedding reproduces explicitly);
* the only genuinely irrational primitive, the float square root used for
  the 20-bar volatility, is passed in as a function parameter `sq`; no claim
  constrains the volatility value;
* the fetched DataFrame is a `List Bar`; the engine reads only the `Close`
  and `Volume` columns, so only those are modelled.
-/

/-- One daily bar of the fetched time series (one row of the DataFrame). -/
structure Bar where
  close : ℚ
  volume : ℚ
deriving DecidableEq

/-- The `Close` column. -/
def closesOf (bars : List Bar) : List ℚ := bars.map (fun b => b.close)

/-- The `Volume` column. -/
def volumesOf (bars : List Bar) : List ℚ := bars.map (fun b => b.volume)

/-- The last `n` entries of a list: the window of `rolling(n)` ending at the
final row, and also the slice `.iloc[-n:]` for `n ≥ 1`. -/
def lastN (n : Nat) (l : List ℚ) : List ℚ := l.drop (l.length - n)

/-- `Series.rolling(window=w).mean().iloc[-1]` for a populated window; all
call sites have `w ≤ l.length`. -/
def meanLast (w : Nat) (l : List ℚ) : ℚ := (lastN w l).sum / (w : ℚ)

/-- `data['Volume'].iloc[-5:].mean()`: pandas divides by the number of rows
actually present in the slice. -/
def recentMean (l : List ℚ) : ℚ := (lastN 5 l).sum / ((lastN 5 l).length : ℚ)

/-- Day-over-day differences `Series.diff()`, without the leading NaN entry. -/
def diffs : List ℚ → List ℚ
  | a :: b :: rest => (b - a) :: diffs (b :: rest)
  | _ => []

/-- Day-over-day relative changes `Series.pct_change()`, without the leading
NaN entry. -/
def pctChanges : List ℚ → List ℚ
  | a :: b :: rest => ((b - a) / a) :: pctChanges (b :: rest)
  | _ => []

/-- `delta.where(delta > 0, 0)`: the leading NaN of `diff()` compares false
against 0 and is replaced by 0, so the gain series has no NaN. -/
def gains : List ℚ → List ℚ
  | [] => []
  | a :: tl => 0 :: (diffs (a :: tl)).map (fun d => if 0 < d then d else 0)

/-- `-delta.where(delta < 0, 0)`: the loss series, likewise NaN-free. -/
def losses : List ℚ → List ℚ
  | [] => []
  | a :: tl => 0 :: (diffs (a :: tl)).map (fun d => if d < 0 then -d else 0)

/-- `Series.rolling(w).mean().iloc[-1]`: NaN (`none`) while the series has
fewer than `w` rows. -/
def rollingMeanLast (w : Nat) (l : List ℚ) : Option ℚ :=
  if l.length < w then none else some ((lastN w l).sum / (w : ℚ))

/-- The last entry of the RSI-14 series:
`rs = gain/loss; rsi = 100 - 100/(1+rs)` evaluated at the final row.
When the final 14-window mean loss is zero, float division gives
`rs = +inf` (if the mean gain is positive, so `rsi = 100 - 100/inf = 100`)
or `rs = 0/0 = NaN` (so `rsi` is NaN, embedded as `none`). -/
def rsiLast (cl : List ℚ) : Option ℚ :=
  match rollingMeanLast 14 (gains cl), rollingMeanLast 14 (losses cl) with
  | some g, some l =>
    if 0 < l then some (100 - 100 / (1 + g / l))
    else if 0 < g then some 100
    else none
  | _, _ => none

/-- `data['Close'].iloc[-k] if len(data) >= k else data['Close'].iloc[0]`. -/
def priceRef (k : Nat) (bars : List Bar) : ℚ :=
  if k ≤ bars.length then (closesOf bars).getD (bars.length - k) 0
  else (closesOf bars).headD 0

/-- `data['Close'].iloc[-1]`. -/
def currentPriceOf (bars : List Bar) : ℚ := (closesOf bars).getLastD 0

/-- `(current - reference) / reference * 100`. -/
def pctReturn (cur ref : ℚ) : ℚ := (cur - ref) / ref * 100

/-- `data['Close'].rolling(window=20).mean().iloc[-1]` (populated whenever the
20-bar gate has passed). -/
def sma20Of (bars : List Bar) : ℚ := meanLast 20 (closesOf bars)

/-- `... rolling(window=50).mean().iloc[-1] if len(data) >= 50 else sma_20`. -/
def sma50Of (bars : List Bar) : ℚ :=
  if 50 ≤ bars.length then meanLast 50 (closesOf bars) else sma20Of bars

/-- `recent_volume / avg_volume_20 if avg_volume_20 > 0 else 1`. -/
def volumeRatioOf (bars : List Bar) : ℚ :=
  if 0 < meanLast 20 (volumesOf bars) then
    recentMean (volumesOf bars) / meanLast 20 (volumesOf bars)
  else 1

/-- Sample variance (pandas default `ddof=1`) of the last 20 entries. -/
def varianceLast20 (l : List ℚ) : ℚ :=
  ((lastN 20 l).map (fun x => (x - (lastN 20 l).sum / 20) ^ 2)).sum / 19

/-- `data['Close'].pct_change().rolling(20).std().iloc[-1] * 100`.  `none` is
the NaN present while the window still contains the leading NaN of
`pct_change()` (series shorter than 21 bars).  `sq` is the float square-root
primitive. -/
def volatilityOf (sq : ℚ → ℚ) (bars : List Bar) : Option ℚ :=
  if (pctChanges (closesOf bars)).length < 20 then none
  else some (sq (varianceLast20 (pctChanges (closesOf bars))) * 100)

/-- `(current_price - sma) / sma * 100`. -/
def priceVsSma (cur sma : ℚ) : ℚ := (cur - sma) / sma * 100

/-- The dictionary returned by `calculate_momentum_indicators`. -/
structure Indicators where
  ticker : String
  current_price : ℚ
  returns_1w : ℚ
  returns_1m : ℚ
  returns_3m : ℚ
  rsi : Option ℚ
  sma_20 : ℚ
  sma_50 : ℚ
  volume_ratio : ℚ
  volatility : Option ℚ
  price_vs_sma20 : ℚ
  price_vs_sma50 : ℚ
deriving DecidableEq

/-- `StockMomentumAnalyzer.calculate_momentum_indicators(data, ticker)`.
Returns `none` exactly when `data is None or len(data) < 20`. -/
def calculate_momentum_indicators (sq : ℚ → ℚ) (data : Option (List Bar))
    (ticker : String) : Option Indicators :=
  match data with
  | none => none
  | some bars =>
    if bars.length < 20 then none
    else some {
      ticker := ticker
      current_price := currentPriceOf bars
      returns_1w := pctReturn (currentPriceOf bars) (priceRef 5 bars)
      returns_1m := pctReturn (currentPriceOf bars) (priceRef 20 bars)
      returns_3m := pctReturn (currentPriceOf bars) (priceRef 60 bars)
      rsi := rsiLast (closesOf bars)
      sma_20 := sma20Of bars
      sma_50 := sma50Of bars
      volume_ratio := volumeRatioOf bars
      volatility := volatilityOf sq bars
      price_vs_sma20 := priceVsSma (currentPriceOf bars) (sma20Of bars)
      price_vs_sma50 :=
        if 0 < sma50Of bars then priceVsSma (currentPriceOf bars) (sma50Of bars)
        else 0
    }

/-- `score += min(returns_1w * 2, 20)` / `max(returns_1w * 2, -20)`. -/
def contrib_1w (r : ℚ) : ℚ := if 0 < r then min (r * 2) 20 else max (r * 2) (-20)

/-- `score += min(returns_1m * 1.5, 15)` / `max(returns_1m * 1.5, -15)`. -/
def contrib_1m (r : ℚ) : ℚ := if 0 < r then min (r * 1.5) 15 else max (r * 1.5) (-15)

/-- `score += min(returns_3m, 10)` / `max(returns_3m, -10)`. -/
def contrib_3m (r : ℚ) : ℚ := if 0 < r then min r 10 else max r (-10)

/-- The RSI tier of the score.  A NaN rsi (`none`) fails every comparison and
adds nothing. -/
def rsi_contrib : Option ℚ → ℚ
  | none => 0
  | some r =>
    if 30 ≤ r ∧ r ≤ 70 then 5
    else if 80 < r then -10
    else if r < 20 then 10
    else 0

/-- The volume-confirmation tier of the score. -/
def volume_contrib (v : ℚ) : ℚ := if 1.2 < v then 5 else if v < 0.8 then -5 else 0

/-- `if indicators['price_vs_sma20'] > 0: score += 3`. -/
def sma20_bonus (p : ℚ) : ℚ := if 0 < p then 3 else 0

/-- `if indicators['price_vs_sma50'] > 0: score += 2`. -/
def sma50_bonus (p : ℚ) : ℚ := if 0 < p then 2 else 0

/-- `StockMomentumAnalyzer.calculate_momentum_score(indicators)`: the running
`score` accumulates exactly these seven summands.  (The `if not indicators`
guard of the Python code concerns a `None` argument, which `analyze_stocks`
never passes.) -/
def calculate_momentum_score (ind : Indicators) : ℚ :=
  contrib_1w ind.returns_1w + contrib_1m ind.returns_1m + contrib_3m ind.returns_3m
    + rsi_contrib ind.rsi + volume_contrib ind.volume_ratio
    + sma20_bonus ind.price_vs_sma20 + sma50_bonus ind.price_vs_sma50

/-- An indicator dictionary after `indicators['momentum_score'] = ...`. -/
structure ScoredRecord extends Indicators where
  momentum_score : ℚ
deriving DecidableEq

/-- `r['volatility'] < 50 and r['current_price'] > 5`; a NaN volatility
compares false. -/
def passesFilter (r : ScoredRecord) : Bool :=
  (match r.volatility with
   | some v => decide (v < 50)
   | none => false) && decide (5 < r.current_price)

/-- The ordering used by `sorted(..., key=lambda x: x['momentum_score'],
reverse=True)`: higher score first. -/
def scoreOrder (a b : ScoredRecord) : Prop := b.momentum_score ≤ a.momentum_score

instance : DecidableRel scoreOrder :=
  fun a b => inferInstanceAs (Decidable (b.momentum_score ≤ a.momentum_score))

instance : IsTotal ScoredRecord scoreOrder :=
  ⟨fun a b => le_total b.momentum_score a.momentum_score⟩

instance : IsTrans ScoredRecord scoreOrder :=
  ⟨fun _ _ _ h1 h2 => le_trans h2 h1⟩

/-- Python's `sorted` is the stable sort by the key; insertion sort with
`scoreOrder` places a later element strictly below every earlier element of
equal score, which is exactly the stable descending order. -/
def sortByScoreDesc (l : List ScoredRecord) : List ScoredRecord :=
  l.insertionSort scoreOrder

/-- Python `l[-n:]`: for `n ≥ 1` the last `min(n, len)` elements; for `n = 0`
the whole list, because `l[-0:]` is `l[0:]`. -/
def pyTailSlice (n : Nat) (l : List ScoredRecord) : List ScoredRecord :=
  if n = 0 then l else l.drop (l.length - n)

/-- `StockMomentumAnalyzer.get_recommendations(results, top_n)`. -/
def get_recommendations (results : List ScoredRecord) (top_n : Nat) :
    List ScoredRecord × List ScoredRecord :=
  if results.isEmpty then ([], [])
  else
    ((sortByScoreDesc (results.filter passesFilter)).take top_n,
     pyTailSlice top_n (sortByScoreDesc (results.filter passesFilter)))

/-- `StockMomentumAnalyzer.analyze_stocks()` over an abstract ticker universe
and fetch collaborator: a record joins `results` exactly when the fetch
returns data and the indicator engine returns a dictionary, which then gets
its momentum score. -/
def analyze_stocks (sq : ℚ → ℚ) (tickers : List String)
    (fetch : String → Option (List Bar)) : List ScoredRecord :=
  tickers.flatMap fun t =>
    match calculate_momentum_indicators sq (fetch t) t with
    | some ind => [{ toIndicators := ind, momentum_score := calculate_momentum_score ind }]
    | none => []

/-! ### Concrete inputs used by witnesses and counterexamples -/

/-- Twenty bars of a constant price: a perfectly valid series on which every
day-over-day delta is zero. -/
def constSeries : List Bar :=
  [⟨10,100⟩, ⟨10,100⟩, ⟨10,100⟩, ⟨10,100⟩, ⟨10,100⟩, ⟨10,100⟩, ⟨10,100⟩,
   ⟨10,100⟩, ⟨10,100⟩, ⟨10,100⟩, ⟨10,100⟩, ⟨10,100⟩, ⟨10,100⟩, ⟨10,100⟩,
   ⟨10,100⟩, ⟨10,100⟩, ⟨10,100⟩, ⟨10,100⟩, ⟨10,100⟩, ⟨10,100⟩]

/-- Twenty bars with negative closes, making the 20-bar SMA negative. -/
def negSeries : List Bar :=
  [⟨-2,100⟩, ⟨-2,100⟩, ⟨-2,100⟩, ⟨-2,100⟩, ⟨-2,100⟩, ⟨-2,100⟩, ⟨-2,100⟩,
   ⟨-2,100⟩, ⟨-2,100⟩, ⟨-2,100⟩, ⟨-2,100⟩, ⟨-2,100⟩, ⟨-2,100⟩, ⟨-2,100⟩,
   ⟨-2,100⟩, ⟨-2,100⟩, ⟨-2,100⟩, ⟨-2,100⟩, ⟨-2,100⟩, ⟨-1,100⟩]

/-- Twenty bars whose closes are 1, 2, ..., 20. -/
def seq20 : List Bar :=
  [⟨1,100⟩, ⟨2,100⟩, ⟨3,100⟩, ⟨4,100⟩, ⟨5,100⟩, ⟨6,100⟩, ⟨7,100⟩, ⟨8,100⟩,
   ⟨9,100⟩, ⟨10,100⟩, ⟨11,100⟩, ⟨12,100⟩, ⟨13,100⟩, ⟨14,100⟩, ⟨15,100⟩,
   ⟨16,100⟩, ⟨17,100⟩, ⟨18,100⟩, ⟨19,100⟩, ⟨20,100⟩]

/-- A five-bar series: too short for the 20-bar gate. -/
def shortSeries : List Bar := List.replicate 5 { close := 10, volume := 100 }

/-- A scored record that survives the risk filter, carrying the given score. -/
def mkRec (s : ℚ) : ScoredRecord :=
  { ticker := "T", current_price := 10, returns_1w := 0, returns_1m := 0,
    returns_3m := 0, rsi := some 50, sma_20 := 1, sma_50 := 1, volume_ratio := 1,
    volatility := some 20, price_vs_sma20 := 0, price_vs_sma50 := 0,
    momentum_score := s }

/-- Scored records with scores 10, -5, 50, -20, 30 in scrambled input order. -/
def exRecords : List ScoredRecord :=
  [mkRec 10, mkRec (-5), mkRec 50, mkRec (-20), mkRec 30]

/-- A scored record rejected by the risk filter (volatility 60 ≥ 50). -/
def badRecord : ScoredRecord :=
  { ticker := "T", current_price := 10, returns_1w := 0, returns_1m := 0,
    returns_3m := 0, rsi := some 50, sma_20 := 1, sma_50 := 1, volume_ratio := 1,
    volatility := some 60, price_vs_sma20 := 0, price_vs_sma50 := 0,
    momentum_score := 0 }

/-- The indicator record of the specification's worked scoring example. -/
def exampleRecord : Indicators :=
  { ticker := "T", current_price := 10, returns_1w := 10, returns_1m := 5,
    returns_3m := 2, rsi := some 50, sma_20 := 1, sma_50 := 1,
    volume_ratio := 1.5, volatility := some 20, price_vs_sma20 := 3,
    price_vs_sma50 := 1 }

/-- The close `k` bars before the last bar: index `len - 1 - k`. -/
def closeBack (k : Nat) (bars : List Bar) : ℚ :=
  (closesOf bars).getD (bars.length - 1 - k) 0

/-! ### Helper lemmas -/

lemma mem_lastN {x : ℚ} {n : Nat} {l : List ℚ} (h : x ∈ lastN n l) : x ∈ l :=
  List.drop_subset _ _ h

lemma lastN_sum_nonneg (n : Nat) (l : List ℚ) (h : ∀ x ∈ l, 0 ≤ x) :
    0 ≤ (lastN n l).sum :=
  List.sum_nonneg fun x hx => h x (mem_lastN hx)

lemma recentMean_nonneg (l : List ℚ) (h : ∀ x ∈ l, 0 ≤ x) : 0 ≤ recentMean l :=
  div_nonneg (lastN_sum_nonneg 5 l h) (Nat.cast_nonneg _)

lemma volumes_nonneg {bars : List Bar} (h : ∀ b ∈ bars, 0 ≤ b.volume) :
    ∀ x ∈ volumesOf bars, 0 ≤ x := by
  intro x hx
  obtain ⟨b, hb, rfl⟩ := List.mem_map.mp hx
  exact h b hb

lemma volumeRatioOf_nonneg (bars : List Bar) (h : ∀ b ∈ bars, 0 ≤ b.volume) :
    0 ≤ volumeRatioOf bars := by
  unfold volumeRatioOf
  split_ifs with hpos
  · exact div_nonneg (recentMean_nonneg _ (volumes_nonneg h)) hpos.le
  · norm_num

lemma gains_nonneg (cl : List ℚ) : ∀ x ∈ gains cl, 0 ≤ x := by
  cases cl with
  | nil => intro x hx; simp [gains] at hx
  | cons a tl =>
    intro x hx
    simp only [gains, List.mem_cons, List.mem_map] at hx
    rcases hx with h | ⟨d, _, hd⟩
    · simp [h]
    · subst hd
      split_ifs with h0
      · exact h0.le
      · exact le_refl 0

lemma rollingMeanLast_nonneg {w : Nat} {l : List ℚ} {g : ℚ}
    (hl : ∀ x ∈ l, 0 ≤ x) (h : rollingMeanLast w l = some g) : 0 ≤ g := by
  unfold rollingMeanLast at h
  split_ifs at h with hw
  rw [Option.some_inj] at h
  subst h
  exact div_nonneg (lastN_sum_nonneg w l hl) (Nat.cast_nonneg _)

lemma rsiLast_bounds (cl : List ℚ) : ∀ x, rsiLast cl = some x → 0 ≤ x ∧ x ≤ 100 := by
  intro x h
  unfold rsiLast at h
  rcases hg : rollingMeanLast 14 (gains cl) with _ | g <;> rw [hg] at h
  · exact absurd h (by simp)
  rcases hl : rollingMeanLast 14 (losses cl) with _ | l <;> rw [hl] at h
  · exact absurd h (by simp)
  have hg0 : 0 ≤ g := rollingMeanLast_nonneg (gains_nonneg cl) hg
  change (if 0 < l then some (100 - 100 / (1 + g / l))
    else if 0 < g then some 100 else none) = some x at h
  split_ifs at h with h1 h2
  · have hq : 0 ≤ g / l := div_nonneg hg0 h1.le
    have hb : (0 : ℚ) < 1 + g / l := by linarith
    have hle : 100 / (1 + g / l) ≤ 100 := div_le_self (by norm_num) (by linarith)
    have hge : 0 ≤ 100 / (1 + g / l) := div_nonneg (by norm_num) hb.le
    obtain rfl : 100 - 100 / (1 + g / l) = x := by
      simpa using h
    constructor <;> linarith
  · obtain rfl : (100 : ℚ) = x := by simpa using h
    norm_num

lemma calc_indicators_eq (sq : ℚ → ℚ) (bars : List Bar) (ticker : String)
    (h : 20 ≤ bars.length) :
    calculate_momentum_indicators sq (some bars) ticker = some {
      ticker := ticker
      current_price := currentPriceOf bars
      returns_1w := pctReturn (currentPriceOf bars) (priceRef 5 bars)
      returns_1m := pctReturn (currentPriceOf bars) (priceRef 20 bars)
      returns_3m := pctReturn (currentPriceOf bars) (priceRef 60 bars)
      rsi := rsiLast (closesOf bars)
      sma_20 := sma20Of bars
      sma_50 := sma50Of bars
      volume_ratio := volumeRatioOf bars
      volatility := volatilityOf sq bars
      price_vs_sma20 := priceVsSma (currentPriceOf bars) (sma20Of bars)
      price_vs_sma50 :=
        if 0 < sma50Of bars then priceVsSma (currentPriceOf bars) (sma50Of bars)
        else 0 } := by
  simp only [calculate_momentum_indicators]
  rw [if_neg (by omega)]

lemma sma20Of_pos (bars : List Bar) (hlen : 20 ≤ bars.length)
    (h : ∀ b ∈ bars, 0 < b.close) : 0 < sma20Of bars := by
  unfold sma20Of meanLast
  apply div_pos _ (by norm_num)
  apply List.sum_pos
  · intro x hx
    obtain ⟨b, hb, rfl⟩ := List.mem_map.mp (mem_lastN hx)
    exact h b hb
  · have hlc : (closesOf bars).length = bars.length := List.length_map _ _
    have hlast : (lastN 20 (closesOf bars)).length = 20 := by
      unfold lastN
      rw [List.length_drop]
      omega
    intro hnil
    rw [hnil] at hlast
    simp at hlast

/-! ### Claims about the Indicator Engine -/

/-- Claim C2, amended: for every series of length at least 20 whose volumes are
non-negative, the indicator record has volume_ratio ≥ 0, and its rsi lies in
[0,100] whenever it is a number at all.  (The claim's universal "rsi ∈ [0,100],
default 50 when undefined" fails: on a constant-price series the rsi float is
NaN, not 50 — see the counterexample.) -/
theorem indicators_rsi_volume_ratio_bounds (sq : ℚ → ℚ) (bars : List Bar)
    (ticker : String) (hlen : 20 ≤ bars.length)
    (hvol : ∀ b ∈ bars, 0 ≤ b.volume) :
    ∃ rec, calculate_momentum_indicators sq (some bars) ticker = some rec ∧
      0 ≤ rec.volume_ratio ∧ ∀ x, rec.rsi = some x → 0 ≤ x ∧ x ≤ 100 := by
  refine ⟨_, calc_indicators_eq sq bars ticker hlen, ?_, ?_⟩
  · show 0 ≤ volumeRatioOf bars
    exact volumeRatioOf_nonneg bars hvol
  · show ∀ x, rsiLast (closesOf bars) = some x → 0 ≤ x ∧ x ≤ 100
    exact rsiLast_bounds (closesOf bars)

/-- Witness for C2's theorem at the concrete 20-bar series with closes
1, 2, ..., 20 (whose rsi evaluates to 100, the mean-loss-zero case). -/
theorem indicators_rsi_volume_ratio_bounds_witness :
    20 ≤ seq20.length ∧ (∀ b ∈ seq20, 0 ≤ b.volume) ∧
      ∃ rec, calculate_momentum_indicators (fun _ => 0) (some seq20) "AAA" = some rec ∧
        0 ≤ rec.volume_ratio ∧ ∀ x, rec.rsi = some x → 0 ≤ x ∧ x ≤ 100 :=
  ⟨by decide, by decide,
    indicators_rsi_volume_ratio_bounds (fun _ => 0) seq20 "AAA" (by decide) (by decide)⟩

/-- Counterexample to C2 as stated: on the constant-price 20-bar series the
rsi of the returned record is NaN (`none`) — neither a value of [0,100] nor
the default 50, which the code only uses on an empty series. -/
theorem rsi_nan_on_constant_series :
    Option.map (fun r => r.rsi)
      (calculate_momentum_indicators (fun _ => 0) (some constSeries) "AAA")
      = some none := by
  norm_num [calculate_momentum_indicators, constSeries, closesOf, rsiLast, gains,
    losses, diffs, rollingMeanLast, lastN]

/-- Claim C3, amended: the volume ratio substitutes 1 when the 20-bar mean
volume is not positive, and price_vs_sma50 substitutes 0 when sma_50 is not
positive; but the code has no such guard for price_vs_sma20 — it divides by
sma_20 unconditionally (for series with all closes positive, sma_20 > 0 makes
that division safe). -/
theorem indicator_division_guards (sq : ℚ → ℚ) (bars : List Bar)
    (ticker : String) (hlen : 20 ≤ bars.length) :
    ∃ rec, calculate_momentum_indicators sq (some bars) ticker = some rec ∧
      (¬ 0 < meanLast 20 (volumesOf bars) → rec.volume_ratio = 1) ∧
      (¬ 0 < rec.sma_50 → rec.price_vs_sma50 = 0) ∧
      ((∀ b ∈ bars, 0 < b.close) → 0 < rec.sma_20) := by
  refine ⟨_, calc_indicators_eq sq bars ticker hlen, ?_, ?_, ?_⟩
  · intro h
    show volumeRatioOf bars = 1
    unfold volumeRatioOf
    rw [if_neg h]
  · intro h
    show (if 0 < sma50Of bars then priceVsSma (currentPriceOf bars) (sma50Of bars)
      else 0) = 0
    exact if_neg h
  · intro h
    show 0 < sma20Of bars
    exact sma20Of_pos bars hlen h

/-- Witness for C3's theorem at the series with closes 1, 2, ..., 20. -/
theorem indicator_division_guards_witness :
    20 ≤ seq20.length ∧
      ∃ rec, calculate_momentum_indicators (fun _ => 0) (some seq20) "BBB" = some rec ∧
        (¬ 0 < meanLast 20 (volumesOf seq20) → rec.volume_ratio = 1) ∧
        (¬ 0 < rec.sma_50 → rec.price_vs_sma50 = 0) ∧
        ((∀ b ∈ seq20, 0 < b.close) → 0 < rec.sma_20) :=
  ⟨by decide, indicator_division_guards (fun _ => 0) seq20 "BBB" (by decide)⟩

/-- Counterexample to C3 as stated: on a 20-bar series with negative closes
the 20-bar moving average is -39/20 ≤ 0, yet price_vs_sma20 is the nonzero
-1900/39 — the division by the non-positive average was performed, not
replaced by the neutral 0. -/
theorem price_vs_sma20_unguarded :
    Option.map (fun r => (r.sma_20, r.price_vs_sma20))
        (calculate_momentum_indicators (fun _ => 0) (some negSeries) "BBB")
      = some (-(39/20), -(1900/39)) ∧
    (-(39/20) : ℚ) ≤ 0 ∧ (-(1900/39) : ℚ) ≠ 0 :=
  ⟨by norm_num [calculate_momentum_indicators, negSeries, closesOf, sma20Of,
      meanLast, lastN, priceVsSma, currentPriceOf, List.getLastD],
    by norm_num, by norm_num⟩

/-- Claim C4, amended: for every series of length at least 20 the reference
closes of returns_1w, returns_1m, returns_3m are the closes 4, 19 and 59 bars
before the last bar (the 5th-, 20th- and 60th-from-last closes), the 3-month
reference falling back to the earliest close when the series is shorter than
60 bars; each return is (current - reference) / reference * 100.  (The claim's
"5, 20 and 60 bars before the last bar" is off by one — see the
counterexample.) -/
theorem returns_reference_closes (sq : ℚ → ℚ) (bars : List Bar)
    (ticker : String) (hlen : 20 ≤ bars.length) :
    ∃ rec, calculate_momentum_indicators sq (some bars) ticker = some rec ∧
      rec.returns_1w = pctReturn (currentPriceOf bars) (closeBack 4 bars) ∧
      rec.returns_1m = pctReturn (currentPriceOf bars) (closeBack 19 bars) ∧
      rec.returns_3m = pctReturn (currentPriceOf bars)
        (if 60 ≤ bars.length then closeBack 59 bars else (closesOf bars).headD 0) := by
  refine ⟨_, calc_indicators_eq sq bars ticker hlen, ?_, ?_, ?_⟩
  · show pctReturn (currentPriceOf bars) (priceRef 5 bars) = _
    unfold priceRef closeBack
    rw [if_pos (by omega)]
    have h5 : bars.length - 5 = bars.length - 1 - 4 := by omega
    rw [h5]
  · show pctReturn (currentPriceOf bars) (priceRef 20 bars) = _
    unfold priceRef closeBack
    rw [if_pos (by omega)]
    have h20 : bars.length - 20 = bars.length - 1 - 19 := by omega
    rw [h20]
  · show pctReturn (currentPriceOf bars) (priceRef 60 bars) = _
    unfold priceRef closeBack
    by_cases h60 : 60 ≤ bars.length
    · rw [if_pos h60, if_pos h60]
      have h59 : bars.length - 60 = bars.length - 1 - 59 := by omega
      rw [h59]
    · rw [if_neg h60, if_neg h60]

/-- Witness for C4's theorem at the series with closes 1, 2, ..., 20. -/
theorem returns_reference_closes_witness :
    20 ≤ seq20.length ∧
      ∃ rec, calculate_momentum_indicators (fun _ => 0) (some seq20) "CCC" = some rec ∧
        rec.returns_1w = pctReturn (currentPriceOf seq20) (closeBack 4 seq20) ∧
        rec.returns_1m = pctReturn (currentPriceOf seq20) (closeBack 19 seq20) ∧
        rec.returns_3m = pctReturn (currentPriceOf seq20)
          (if 60 ≤ seq20.length then closeBack 59 seq20 else (closesOf seq20).headD 0) :=
  ⟨by decide, returns_reference_closes (fun _ => 0) seq20 "CCC" (by decide)⟩

/-- Counterexample to C4 as stated: with closes 1, ..., 20 the code's 1-week
return is 25 (reference close 16, four bars before the last), while the close
five bars before the last bar (15) would give 100/3. -/
theorem returns_1w_reference_off_by_one :
    Option.map (fun r => r.returns_1w)
        (calculate_momentum_indicators (fun _ => 0) (some seq20) "CCC")
      = some 25 ∧
    (25 : ℚ) ≠ pctReturn (currentPriceOf seq20) (closeBack 5 seq20) :=
  ⟨by norm_num [calculate_momentum_indicators, seq20, closesOf, pctReturn,
      priceRef, currentPriceOf, List.getLastD],
    by norm_num [seq20, closesOf, pctReturn, closeBack, currentPriceOf,
      List.getLastD]⟩

/-! ### Claims about the Scoring Engine -/

/-- Claim C5: each return-based contribution equals the symmetric clamp of the
scaled return — the 1-week term is returns_1w * 2 clamped to [-20, 20], the
1-month term is returns_1m * 1.5 clamped to [-15, 15], the 3-month term is
returns_3m clamped to [-10, 10] — and a 1-week return of 500 contributes
exactly 20. -/
theorem return_contribs_clamped (r : ℚ) :
    contrib_1w r = max (-20) (min (r * 2) 20) ∧
    contrib_1m r = max (-15) (min (r * 1.5) 15) ∧
    contrib_3m r = max (-10) (min r 10) ∧
    contrib_1w 500 = 20 := by
  refine ⟨?_, ?_, ?_, by norm_num [contrib_1w]⟩
  · unfold contrib_1w
    split_ifs with h
    · rw [max_eq_right (le_min (by linarith) (by norm_num))]
    · push_neg at h
      rw [min_eq_left (by linarith), max_comm]
  · unfold contrib_1m
    split_ifs with h
    · rw [max_eq_right (le_min (by linarith) (by norm_num))]
    · push_neg at h
      rw [min_eq_left (by nlinarith), max_comm]
  · unfold contrib_3m
    split_ifs with h
    · rw [max_eq_right (le_min (by linarith) (by norm_num))]
    · push_neg at h
      rw [min_eq_left (by linarith), max_comm]

/-- Claim C6: the specification's worked example — returns 10/5/2, rsi 50,
volume ratio 1.5, price above both moving averages — scores exactly 44.5. -/
theorem score_example_44_5 (ind : Indicators)
    (h1 : ind.returns_1w = 10) (h2 : ind.returns_1m = 5) (h3 : ind.returns_3m = 2)
    (h4 : ind.rsi = some 50) (h5 : ind.volume_ratio = 1.5)
    (h6 : 0 < ind.price_vs_sma20) (h7 : 0 < ind.price_vs_sma50) :
    calculate_momentum_score ind = 44.5 := by
  have e1 : contrib_1w ind.returns_1w = 20 := by
    rw [h1]; norm_num [contrib_1w, min_def]
  have e2 : contrib_1m ind.returns_1m = 7.5 := by
    rw [h2]; norm_num [contrib_1m, min_def]
  have e3 : contrib_3m ind.returns_3m = 2 := by
    rw [h3]; norm_num [contrib_3m, min_def]
  have e4 : rsi_contrib ind.rsi = 5 := by
    rw [h4]; norm_num [rsi_contrib]
  have e5 : volume_contrib ind.volume_ratio = 5 := by
    rw [h5]; norm_num [volume_contrib]
  have e6 : sma20_bonus ind.price_vs_sma20 = 3 := by
    unfold sma20_bonus; rw [if_pos h6]
  have e7 : sma50_bonus ind.price_vs_sma50 = 2 := by
    unfold sma50_bonus; rw [if_pos h7]
  unfold calculate_momentum_score
  rw [e1, e2, e3, e4, e5, e6, e7]
  norm_num

/-- Witness for C6's theorem at a fully concrete indicator record. -/
theorem score_example_44_5_witness : calculate_momentum_score exampleRecord = 44.5 :=
  score_example_44_5 exampleRecord rfl rfl rfl rfl rfl (by norm_num [exampleRecord])
    (by norm_num [exampleRecord])

lemma contrib_1w_bounds (r : ℚ) : -20 ≤ contrib_1w r ∧ contrib_1w r ≤ 20 := by
  unfold contrib_1w
  split_ifs with h
  · exact ⟨le_min (by linarith) (by norm_num), min_le_right _ _⟩
  · push_neg at h
    exact ⟨le_max_right _ _, max_le (by linarith) (by norm_num)⟩

lemma contrib_1m_bounds (r : ℚ) : -15 ≤ contrib_1m r ∧ contrib_1m r ≤ 15 := by
  unfold contrib_1m
  split_ifs with h
  · exact ⟨le_min (by linarith) (by norm_num), min_le_right _ _⟩
  · push_neg at h
    exact ⟨le_max_right _ _, max_le (by nlinarith) (by norm_num)⟩

lemma contrib_3m_bounds (r : ℚ) : -10 ≤ contrib_3m r ∧ contrib_3m r ≤ 10 := by
  unfold contrib_3m
  split_ifs with h
  · exact ⟨le_min (by linarith) (by norm_num), min_le_right _ _⟩
  · push_neg at h
    exact ⟨le_max_right _ _, max_le (by linarith) (by norm_num)⟩

lemma rsi_contrib_bounds (o : Option ℚ) : -10 ≤ rsi_contrib o ∧ rsi_contrib o ≤ 10 := by
  cases o with
  | none => norm_num [rsi_contrib]
  | some r =>
    simp only [rsi_contrib]
    split_ifs <;> norm_num

lemma volume_contrib_bounds (v : ℚ) : -5 ≤ volume_contrib v ∧ volume_contrib v ≤ 5 := by
  unfold volume_contrib
  split_ifs <;> norm_num

lemma sma20_bonus_bounds (p : ℚ) : 0 ≤ sma20_bonus p ∧ sma20_bonus p ≤ 3 := by
  unfold sma20_bonus
  split_ifs <;> norm_num

lemma sma50_bonus_bounds (p : ℚ) : 0 ≤ sma50_bonus p ∧ sma50_bonus p ≤ 2 := by
  unfold sma50_bonus
  split_ifs <;> norm_num

/-- Claim C10: for every indicator record the momentum score lies in
[-60, 65] = [-20-15-10-10-5, 20+15+10+10+5+3+2]. -/
theorem momentum_score_bounded (ind : Indicators) :
    -60 ≤ calculate_momentum_score ind ∧ calculate_momentum_score ind ≤ 65 := by
  obtain ⟨a1, a2⟩ := contrib_1w_bounds ind.returns_1w
  obtain ⟨b1, b2⟩ := contrib_1m_bounds ind.returns_1m
  obtain ⟨c1, c2⟩ := contrib_3m_bounds ind.returns_3m
  obtain ⟨d1, d2⟩ := rsi_contrib_bounds ind.rsi
  obtain ⟨e1, e2⟩ := volume_contrib_bounds ind.volume_ratio
  obtain ⟨f1, f2⟩ := sma20_bonus_bounds ind.price_vs_sma20
  obtain ⟨g1, g2⟩ := sma50_bonus_bounds ind.price_vs_sma50
  unfold calculate_momentum_score
  constructor <;> linarith

/-! ### Claims about the Orchestrator -/

/-- Claim C7: an absent series or one with fewer than 20 bars produces no
indicator record, and every record collected by `analyze_stocks` — hence
everything reaching the Scoring Engine — comes from a fetched series of at
least 20 bars, carrying the momentum score of its own indicators. -/
theorem short_series_no_record :
    (∀ (sq : ℚ → ℚ) (ticker : String),
        calculate_momentum_indicators sq none ticker = none) ∧
    (∀ (sq : ℚ → ℚ) (bars : List Bar) (ticker : String), bars.length < 20 →
        calculate_momentum_indicators sq (some bars) ticker = none) ∧
    (∀ (sq : ℚ → ℚ) (tickers : List String) (fetch : String → Option (List Bar))
        (r : ScoredRecord), r ∈ analyze_stocks sq tickers fetch →
        ∃ t, t ∈ tickers ∧ ∃ bars, fetch t = some bars ∧ 20 ≤ bars.length ∧
          r.momentum_score = calculate_momentum_score r.toIndicators) := by
  refine ⟨fun sq ticker => rfl, fun sq bars ticker h => ?_, ?_⟩
  · simp only [calculate_momentum_indicators]
    rw [if_pos h]
  · intro sq tickers fetch r hr
    unfold analyze_stocks at hr
    rw [List.mem_flatMap] at hr
    obtain ⟨t, ht, hrt⟩ := hr
    rcases hcalc : calculate_momentum_indicators sq (fetch t) t with _ | ind <;>
      rw [hcalc] at hrt
    · exact absurd hrt (by simp)
    simp only [List.mem_singleton] at hrt
    subst hrt
    rcases hf : fetch t with _ | bars <;> rw [hf] at hcalc
    · exact absurd hcalc (by simp [calculate_momentum_indicators])
    refine ⟨t, ht, bars, hf, ?_, rfl⟩
    by_contra hlt
    push_neg at hlt
    rw [show calculate_momentum_indicators sq (some bars) t = none from by
      simp only [calculate_momentum_indicators]; rw [if_pos hlt]] at hcalc
    exact absurd hcalc (by simp)

/-- Witness for C7's theorem: the five-bar series is rejected. -/
theorem short_series_no_record_witness :
    shortSeries.length < 20 ∧
      calculate_momentum_indicators (fun _ => 0) (some shortSeries) "DDD" = none :=
  ⟨by decide, short_series_no_record.2.1 (fun _ => 0) shortSeries "DDD" (by decide)⟩

/-! ### Claims about the Ranking and Filter Engine -/

lemma sortByScoreDesc_perm (l : List ScoredRecord) :
    List.Perm (sortByScoreDesc l) l :=
  List.perm_insertionSort scoreOrder l

lemma mem_pyTailSlice {r : ScoredRecord} {n : Nat} {l : List ScoredRecord}
    (h : r ∈ pyTailSlice n l) : r ∈ l := by
  unfold pyTailSlice at h
  split_ifs at h with h0
  · exact h
  · exact List.drop_subset _ _ h

lemma passesFilter_iff (r : ScoredRecord) :
    passesFilter r = true ↔
      (∃ v, r.volatility = some v ∧ v < 50) ∧ 5 < r.current_price := by
  unfold passesFilter
  rcases hv : r.volatility with _ | v
  · simp [hv]
  · simp [hv]

lemma mem_get_recommendations {results : List ScoredRecord} {top_n : Nat}
    {r : ScoredRecord}
    (h : r ∈ (get_recommendations results top_n).1 ∨
         r ∈ (get_recommendations results top_n).2) :
    r ∈ results.filter passesFilter := by
  unfold get_recommendations at h
  by_cases he : results.isEmpty
  · rw [if_pos he] at h
    rcases h with h | h <;> exact absurd h (by simp)
  · rw [if_neg he] at h
    have hs : r ∈ sortByScoreDesc (results.filter passesFilter) := by
      rcases h with h | h
      · exact List.take_subset _ _ h
      · exact mem_pyTailSlice h
    exact (sortByScoreDesc_perm _).mem_iff.mp hs

/-- Claim C8: the filter retains exactly the records with volatility < 50 and
current price > 5 (a NaN volatility also fails), and everything in the buy or
sell list satisfies both bounds. -/
theorem filter_retains_exactly (results : List ScoredRecord) (top_n : Nat)
    (r : ScoredRecord) :
    (r ∈ results.filter passesFilter ↔
      r ∈ results ∧ (∃ v, r.volatility = some v ∧ v < 50) ∧ 5 < r.current_price) ∧
    ((r ∈ (get_recommendations results top_n).1 ∨
      r ∈ (get_recommendations results top_n).2) →
      r ∈ results ∧ (∃ v, r.volatility = some v ∧ v < 50) ∧ 5 < r.current_price) := by
  have hiff : r ∈ results.filter passesFilter ↔
      r ∈ results ∧ (∃ v, r.volatility = some v ∧ v < 50) ∧ 5 < r.current_price := by
    rw [List.mem_filter, passesFilter_iff]
  exact ⟨hiff, fun h => hiff.mp (mem_get_recommendations h)⟩

/-- Witness for C8's theorem: the score-50 record of the worked ranking
example is in the buy list and indeed passes both filter bounds. -/
theorem filter_retains_exactly_witness :
    (∃ v, (mkRec 50).volatility = some v ∧ v < 50) ∧ 5 < (mkRec 50).current_price :=
  ((filter_retains_exactly exRecords 2 (mkRec 50)).2 (Or.inl (by decide))).2

/-- Claim C9: when no record survives the risk filter — in particular for an
empty record set — both recommendation lists are empty. -/
theorem empty_filtered_empty_lists (results : List ScoredRecord) (top_n : Nat)
    (h : results.filter passesFilter = []) :
    get_recommendations results top_n = ([], []) := by
  unfold get_recommendations
  by_cases he : results.isEmpty
  · rw [if_pos he]
  · rw [if_neg he, h]
    show ((sortByScoreDesc []).take top_n, pyTailSlice top_n (sortByScoreDesc [])) = ([], [])
    have hs : sortByScoreDesc [] = [] := rfl
    rw [hs]
    unfold pyTailSlice
    split_ifs <;> simp

/-- Witness for C9's theorem: a single record failing the volatility bound
leaves the filtered set empty, and both lists come back empty. -/
theorem empty_filtered_empty_lists_witness :
    ([badRecord] : List ScoredRecord).filter passesFilter = [] ∧
      get_recommendations [badRecord] 3 = ([], []) :=
  ⟨by decide, empty_filtered_empty_lists [badRecord] 3 (by decide)⟩

/-- Claim C1, amended: for every record set and every top_n ≥ 1, the engine
sorts the filtered records by momentum score descending (a stable permutation
of the filtered set, `scoreOrder`-sorted), the buy list is the first top_n
entries and the sell list is the exact tail slice of that same sort — not a
separately re-sorted list.  (For top_n = 0 the code instead returns the whole
sorted list as the sell list, because Python's l[-0:] is l — see the
counterexample.) -/
theorem get_recommendations_sorted_slices (results : List ScoredRecord)
    (top_n : Nat) (h : 1 ≤ top_n) :
    List.Perm (sortByScoreDesc (results.filter passesFilter))
      (results.filter passesFilter) ∧
    List.Sorted scoreOrder (sortByScoreDesc (results.filter passesFilter)) ∧
    get_recommendations results top_n =
      ((sortByScoreDesc (results.filter passesFilter)).take top_n,
       (sortByScoreDesc (results.filter passesFilter)).drop
         ((sortByScoreDesc (results.filter passesFilter)).length - top_n)) := by
  refine ⟨sortByScoreDesc_perm _, List.sorted_insertionSort scoreOrder _, ?_⟩
  unfold get_recommendations pyTailSlice
  by_cases he : results.isEmpty
  · rw [if_pos he]
    have hres : results = [] := List.isEmpty_iff.mp he
    subst hres
    simp [sortByScoreDesc, List.insertionSort]
  · rw [if_neg he, if_neg (by omega : ¬ top_n = 0)]

/-- Witness for C1's theorem: scores 10, -5, 50, -20, 30 with top_n = 2 give
buy scores [50, 30] and sell scores [-5, -20], the tail of the full sort. -/
theorem get_recommendations_sorted_slices_witness :
    1 ≤ 2 ∧
    (List.Perm (sortByScoreDesc (exRecords.filter passesFilter))
        (exRecords.filter passesFilter) ∧
      List.Sorted scoreOrder (sortByScoreDesc (exRecords.filter passesFilter)) ∧
      get_recommendations exRecords 2 =
        ((sortByScoreDesc (exRecords.filter passesFilter)).take 2,
         (sortByScoreDesc (exRecords.filter passesFilter)).drop
           ((sortByScoreDesc (exRecords.filter passesFilter)).length - 2))) ∧
    (get_recommendations exRecords 2).1.map (fun r => r.momentum_score) = [50, 30] ∧
    (get_recommendations exRecords 2).2.map (fun r => r.momentum_score) = [-5, -20] :=
  ⟨by norm_num, get_recommendations_sorted_slices exRecords 2 (by norm_num),
    by decide, by decide⟩

/-- Counterexample to C1 as stated, at top_n = 0: the sell list is the whole
surviving record list (Python results[-0:] is the full list), not the empty
"last 0 entries of the sort". -/
theorem get_recommendations_topn_zero :
    (get_recommendations [mkRec 7] 0).2 = [mkRec 7] ∧
    [mkRec 7] ≠ ([] : List ScoredRecord) :=
  ⟨by decide, by decide⟩
